import Mathlib

/-!
Verification model of `app.py`, a single-file Flask NER demo.

Backend (`api_ner`): the `POST /api/ner` handler decodes the request body with
`request.get_json(silent=True) or {}`, reads `data.get("text", "")`, rejects
non-string or blank text with HTTP 400, and otherwise serializes the spans
returned by the spaCy pipeline (modelled as an opaque `extract` function) as
`{"entities": [{text, label, start, end}, ...]}` with HTTP 200.

Frontend (embedded JavaScript): `escapeHtml`, `renderHighlighted`,
`renderEntitiesTable`, and the analyze-button flow that calls the two
renderers on the same array. `renderHighlighted` sorts its argument array in
place (JavaScript `Array.prototype.sort` is stable, modelled by stable
insertion sort), so the model returns both the DOM write and the array as the
caller sees it afterwards.
-/

/-- JSON values as decoded by the request parser. Numbers are modelled as
integers: the wire protocol of this app only carries character offsets. -/
inductive Json where
  | null : Json
  | bool (b : Bool) : Json
  | num (n : Int) : Json
  | str (s : String) : Json
  | arr (elems : List Json) : Json
  | obj (fields : List (String × Json)) : Json

/-- Python truthiness of a decoded JSON value (`None`, `False`, `0`, `""`,
`[]`, `{}` are falsy), as used by `request.get_json(silent=True) or {}`. -/
def pyTruthy : Json → Bool
  | Json.null => false
  | Json.bool b => b
  | Json.num n => n != 0
  | Json.str s => s != ""
  | Json.arr elems => !elems.isEmpty
  | Json.obj fields => !fields.isEmpty

/-- Whether a decoded JSON value is an object (a Python `dict`). -/
def Json.isObj : Json → Bool
  | Json.obj _ => true
  | _ => false

/-- Key lookup in a decoded JSON object. Python's JSON decoder keeps the last
occurrence of a duplicated key, so the last binding wins. -/
def lookupLast (k : String) : List (String × Json) → Option Json
  | [] => none
  | kv :: rest =>
      match lookupLast k rest with
      | some v => some v
      | none => if kv.fst = k then some kv.snd else none

/-- The whitespace characters stripped by Python's `str.strip()` (ASCII
range; the inputs of interest here are ASCII). -/
def pyIsSpace (c : Char) : Bool :=
  c = ' ' || c = '\t' || c = '\n' || c = '\r' || c = '\x0b' || c = '\x0c'

/-- Python's `str.strip()`: drop leading and trailing whitespace. -/
def pyStrip (s : String) : String :=
  String.mk (((s.data.dropWhile pyIsSpace).reverse.dropWhile pyIsSpace).reverse)

/-- One recognized entity span: `{text, label, start, end}` with `start` and
`end` zero-based character offsets into the input (spaCy's `ent.start_char`
and `ent.end_char` are non-negative, hence `Nat`). -/
structure EntitySpan where
  text : String
  label : String
  start : Nat
  «end» : Nat
deriving DecidableEq, Repr

/-- Serialization of one span in the handler's JSON response. -/
def serializeEnt (e : EntitySpan) : Json :=
  Json.obj [(("text"), Json.str e.text), (("label"), Json.str e.label),
            (("start"), Json.num e.start), (("end"), Json.num e.«end»)]

structure HttpResponse where
  status : Nat
  body : Json

/-- The handler's 400 body: `{"error": "No text provided"}`. -/
def errBody : Json := Json.obj [(("error"), Json.str ("No text provided"))]

/-- The `POST /api/ner` handler. `body = none` models an absent or
unparseable JSON body (`request.get_json(silent=True)` returns `None`);
`Json.null` models a body that is the JSON literal `null` (also decoded to
`None`, hence falsy). `data.get` on a non-dict raises `AttributeError`,
modelled as `Except.error`, which Flask surfaces as HTTP 500. -/
def api_ner (extract : String → List EntitySpan) (body : Option Json) :
    Except String HttpResponse :=
  let data : Json :=
    match body with
    | none => Json.obj []
    | some j => if pyTruthy j then j else Json.obj []
  match data with
  | Json.obj fields =>
      match (lookupLast ("text") fields).getD (Json.str ("")) with
      | Json.str s =>
          if pyStrip s = "" then Except.ok ⟨400, errBody⟩
          else Except.ok ⟨200,
            Json.obj [(("entities"), Json.arr ((extract s).map serializeEnt))]⟩
      | _ => Except.ok ⟨400, errBody⟩
  | _ => Except.error ("AttributeError")

/-- The handler's rejection test on the decoded `text` value:
`not isinstance(text, str) or text.strip() == ""`, with the `data.get`
default of `""` applied first. -/
def textInvalid (fields : List (String × Json)) : Bool :=
  match (lookupLast ("text") fields).getD (Json.str ("")) with
  | Json.str s => pyStrip s == ""
  | _ => true

/-- An extraction function that finds nothing, for concrete instantiations. -/
def extractNone : String → List EntitySpan := fun _ => []

/-- An extraction function meeting the span contract, for concrete
instantiations: one span covering the first two characters when they exist. -/
def extractFirstTwo : String → List EntitySpan := fun t =>
  if 2 ≤ t.length then [⟨String.mk (t.data.take 2), ("X"), 0, 2⟩] else []

/-- One character's image under the frontend's `escapeHtml`, which chains
global replacements of `&`, then `<`, then `>`. The first pass runs before
any `&amp;`/`&lt;`/`&gt;` is introduced and the later passes touch only `<`
and `>`, which the inserted texts do not contain, so the chain acts
independently on each source character and is modelled as a single pass. -/
def escChar (c : Char) : List Char :=
  if c = '&' then ['&', 'a', 'm', 'p', ';']
  else if c = '<' then ['&', 'l', 't', ';']
  else if c = '>' then ['&', 'g', 't', ';']
  else [c]

/-- The frontend's `escapeHtml`. -/
def escapeHtml (s : String) : String := String.mk (s.data.flatMap escChar)

/-- JavaScript `String.prototype.slice` at the non-negative indices used
here: `text.slice(a, b)` clamps both indices to the string length and yields
the empty string when the clamped start is not below the clamped stop;
`List.take`/`List.drop` and truncated `Nat` subtraction do that clamping. -/
def jsSlice (s : String) (a b : Nat) : String :=
  String.mk ((s.data.drop a).take (b - a))

/-- The frontend's `COLOR_MAP` object. -/
def COLOR_MAP : List (String × String) :=
  [(("PERSON"), ("#ffe8e6")), (("ORG"), ("#e8fff0")), (("GPE"), ("#fff6e6")),
   (("LOC"), ("#eef2ff")), (("DATE"), ("#fff0f5")), (("TIME"), ("#f0fff5")),
   (("MONEY"), ("#fff7e6")), (("PERCENT"), ("#f3fff6"))]

/-- The loop's `COLOR_MAP[label] || '#f2f9ff'` (no map value is falsy). -/
def bgFor (label : String) : String := (COLOR_MAP.lookup label).getD ("#f2f9ff")

/-- The markup the highlight loop emits for one span: the `mark` element
around the escaped slice `text.slice(e.start, e.end)`, with the label
interpolated into the template literal without escaping. -/
def highlightMark (text : String) (e : EntitySpan) : String :=
  "<mark class=\"entity\" style=\"background:" ++ bgFor e.label ++ "\">" ++
    escapeHtml (jsSlice text e.start e.«end») ++
    " <span class=\"label\">[" ++ e.label ++ "]</span></mark>"

/-- The comparator `(a, b) => a.start - b.start` of `entities.sort`, as the
ordering it induces. -/
def spanLe (a b : EntitySpan) : Prop := a.start ≤ b.start

instance : DecidableRel spanLe := fun a b => Nat.decLe a.start b.start

instance : IsTotal EntitySpan spanLe := ⟨fun a b => Nat.le_total a.start b.start⟩

instance : IsTrans EntitySpan spanLe := ⟨fun _ _ _ h1 h2 => Nat.le_trans h1 h2⟩

/-- `entities.sort((a, b) => a.start - b.start)`: JavaScript's `sort` is
stable, so it is modelled by stable insertion sort on `start`. -/
def sortByStart (l : List EntitySpan) : List EntitySpan := l.insertionSort spanLe

/-- A write to a DOM element: either a `textContent` assignment (the browser
displays the raw string) or an `innerHTML` assignment (the string is parsed
as markup). -/
inductive DomWrite where
  | setText (s : String) : DomWrite
  | setHTML (s : String) : DomWrite
deriving DecidableEq, Repr

/-- The HTML serialization of the written content: a `textContent`
assignment displays exactly the text that an `innerHTML` assignment of the
escaped string would, so it serializes to the escaped string. -/
def DomWrite.asHTML : DomWrite → String
  | DomWrite.setText s => escapeHtml s
  | DomWrite.setHTML s => s

/-- The body of `renderHighlighted`'s `for` loop plus the trailing
`if (cursor < text.length)` emission, as a recursion over the sorted span
list carrying the cursor. -/
def renderLoop (text : String) : List EntitySpan → Nat → String
  | [], cursor =>
      if cursor < text.length then escapeHtml (jsSlice text cursor text.length) else ""
  | e :: rest, cursor =>
      (if cursor < e.start then escapeHtml (jsSlice text cursor e.start) else "") ++
        highlightMark text e ++ renderLoop text rest e.«end»

/-- `renderHighlighted(text, entities)`: on an empty list it assigns
`textContent = text` and returns before the sort; otherwise it sorts the
array in place, walks it with a cursor from 0, and assigns the wrapped
markup to `innerHTML`. The result pairs the DOM write with the array as the
caller sees it afterwards (JavaScript `sort` mutates its receiver). -/
def renderHighlighted (text : String) (entities : List EntitySpan) :
    DomWrite × List EntitySpan :=
  if entities.isEmpty then (DomWrite.setText text, entities)
  else
    (DomWrite.setHTML ("<div style=\"line-height:1.5;\">" ++
        renderLoop text (sortByStart entities) 0 ++ "</div>"),
      sortByStart entities)

/-- Stated from the claim's wording (C4): walk the sorted spans with a
cursor, for each span emitting the escaped plain text from the cursor to
`span.start`, then the highlighted escaped substring tagged with the label
(the markup shape itself is the code's, taken as given), then after the last
span the escaped plain text from the cursor to the end — with no emptiness
guards, an empty slice contributing nothing. -/
def specHighlightWalk (text : String) : List EntitySpan → Nat → String
  | [], cursor => escapeHtml (jsSlice text cursor text.length)
  | e :: rest, cursor =>
      escapeHtml (jsSlice text cursor e.start) ++ highlightMark text e ++
        specHighlightWalk text rest e.«end»

/-- `renderEntitiesTable(entities)`: the `innerHTML` assigned to the
entities panel — a placeholder when the list is empty, otherwise one table
row `(text, label, start–end)` per span in the order of the list received. -/
def renderEntitiesTable (entities : List EntitySpan) : String :=
  if entities.isEmpty then "No entities detected."
  else
    "<table><thead><tr><th>Text</th><th>Label</th><th>Span</th></tr></thead><tbody>" ++
      String.join (entities.map (fun e =>
        "<tr><td>" ++ escapeHtml e.text ++ "</td><td>" ++ escapeHtml e.label ++
          "</td><td>" ++ toString e.start ++ "–" ++ toString e.«end» ++ "</td></tr>")) ++
      "</tbody></table>"

/-- The analyze-button flow after a 200 response:
`renderHighlighted(inputText.value, ents)` then `renderEntitiesTable(ents)`
on the same array, which `renderHighlighted` may have sorted in place. -/
def analyzeRender (text : String) (ents : List EntitySpan) : DomWrite × String :=
  let r := renderHighlighted text ents
  (r.fst, renderEntitiesTable r.snd)

/-- Adjacent overlap in a span list: some `span[i].end > span[i+1].start`. -/
def hasOverlap : List EntitySpan → Bool
  | e1 :: e2 :: rest => (e2.start < e1.«end») || hasOverlap (e2 :: rest)
  | _ => false

lemma api_ner_obj (ex : String → List EntitySpan) (fields : List (String × Json)) :
    api_ner ex (some (Json.obj fields)) =
      match (lookupLast ("text") fields).getD (Json.str ("")) with
      | Json.str s =>
          if pyStrip s = "" then Except.ok ⟨400, errBody⟩
          else Except.ok ⟨200,
            Json.obj [(("entities"), Json.arr ((ex s).map serializeEnt))]⟩
      | _ => Except.ok ⟨400, errBody⟩ := by
  cases fields with
  | nil => rfl
  | cons kv rest => rfl

lemma api_ner_err400 (ex : String → List EntitySpan) (fields : List (String × Json))
    (h : textInvalid fields = true) :
    api_ner ex (some (Json.obj fields)) = Except.ok ⟨400, errBody⟩ := by
  rw [api_ner_obj]
  unfold textInvalid at h
  cases hval : (lookupLast ("text") fields).getD (Json.str ("")) <;> simp_all

lemma api_ner_ok200 (ex : String → List EntitySpan) (fields : List (String × Json))
    (s : String) (hl : (lookupLast ("text") fields).getD (Json.str ("")) = Json.str s)
    (hs : pyStrip s ≠ "") :
    api_ner ex (some (Json.obj fields)) =
      Except.ok ⟨200, Json.obj [(("entities"), Json.arr ((ex s).map serializeEnt))]⟩ := by
  rw [api_ner_obj, hl]
  simp [hs]

/-- C1: a `POST /api/ner` request whose `text` field is missing, not a
string, or empty/whitespace-only gets HTTP 400 with body
`{"error": "No text provided"}`, and never HTTP 200. -/
theorem c1_invalid_text_gives_400 (extract : String → List EntitySpan)
    (fields : List (String × Json)) (h : textInvalid fields = true) :
    api_ner extract (some (Json.obj fields)) = Except.ok ⟨400, errBody⟩ ∧
      ∀ r : HttpResponse,
        api_ner extract (some (Json.obj fields)) = Except.ok r → r.status ≠ 200 := by
  have h4 := api_ner_err400 extract fields h
  refine ⟨h4, fun r hr => ?_⟩
  rw [h4] at hr
  injection hr with hh
  rw [← hh]
  decide

/-- Witness for C1 at the whitespace-only body `{"text": "   "}`. -/
theorem c1_witness :
    textInvalid [(("text"), Json.str ("   "))] = true ∧
      api_ner extractNone (some (Json.obj [(("text"), Json.str ("   "))])) =
        Except.ok ⟨400, errBody⟩ :=
  ⟨by decide, (c1_invalid_text_gives_400 extractNone _ (by decide)).1⟩

/-- C2: a request whose `text` is a non-empty, non-whitespace-only string
gets HTTP 200 with the extraction service's spans serialized as
`{text, label, start, end}` in service order (the handler does not re-sort). -/
theorem c2_valid_text_gives_200_in_service_order (extract : String → List EntitySpan)
    (fields : List (String × Json)) (s : String)
    (hl : (lookupLast ("text") fields).getD (Json.str ("")) = Json.str s)
    (hs : pyStrip s ≠ "") :
    api_ner extract (some (Json.obj fields)) =
      Except.ok ⟨200, Json.obj [(("entities"), Json.arr ((extract s).map serializeEnt))]⟩ :=
  api_ner_ok200 extract fields s hl hs

/-- Witness for C2 at the body `{"text": "hi"}`. -/
theorem c2_witness :
    api_ner extractFirstTwo (some (Json.obj [(("text"), Json.str ("hi"))])) =
      Except.ok ⟨200,
        Json.obj [(("entities"),
          Json.arr ((extractFirstTwo ("hi")).map serializeEnt))]⟩ :=
  c2_valid_text_gives_200_in_service_order extractFirstTwo _ ("hi") rfl (by decide)

/-- C3: if the extraction service meets its span contract, every entity in a
200 response satisfies `0 ≤ start < end ≤ length(text)` for the submitted
text. -/
theorem c3_response_spans_in_bounds (extract : String → List EntitySpan)
    (hc : ∀ t : String, ∀ e ∈ extract t, e.start < e.«end» ∧ e.«end» ≤ t.length)
    (fields : List (String × Json)) (s : String)
    (hl : (lookupLast ("text") fields).getD (Json.str ("")) = Json.str s)
    (hs : pyStrip s ≠ "") :
    ∃ ents : List EntitySpan,
      api_ner extract (some (Json.obj fields)) =
        Except.ok ⟨200, Json.obj [(("entities"), Json.arr (ents.map serializeEnt))]⟩ ∧
      ∀ e ∈ ents, 0 ≤ e.start ∧ e.start < e.«end» ∧ e.«end» ≤ s.length :=
  ⟨extract s, api_ner_ok200 extract fields s hl hs,
    fun e he => ⟨Nat.zero_le _, (hc s e he).1, (hc s e he).2⟩⟩

/-- Witness for C3: `extractFirstTwo` meets the contract, checked on the
body `{"text": "ab"}`. -/
theorem c3_witness :
    ∃ ents : List EntitySpan,
      api_ner extractFirstTwo (some (Json.obj [(("text"), Json.str ("ab"))])) =
        Except.ok ⟨200, Json.obj [(("entities"), Json.arr (ents.map serializeEnt))]⟩ ∧
      ∀ e ∈ ents, 0 ≤ e.start ∧ e.start < e.«end» ∧ e.«end» ≤ ("ab").length :=
  c3_response_spans_in_bounds extractFirstTwo
    (by
      intro t e he
      unfold extractFirstTwo at he
      by_cases h2 : 2 ≤ t.length
      · rw [if_pos h2] at he
        rcases List.mem_singleton.mp he with rfl
        refine ⟨?_, h2⟩
        show (0 : Nat) < 2
        decide
      · rw [if_neg h2] at he
        cases he)
    _ ("ab") rfl (by decide)

/-- C9 (amended): an absent body, unparseable JSON, or any falsy decoded
value (`null`, `false`, `0`, `""`, `[]`, `{}`) is treated like a missing
`text` field and gets HTTP 400 with `{"error": "No text provided"}`; but a
truthy non-object body (for example a non-empty array) makes `data.get`
raise `AttributeError`, an unhandled error surfaced as HTTP 500. -/
theorem c9_amended_body_handling (extract : String → List EntitySpan) (j : Json) :
    api_ner extract none = Except.ok ⟨400, errBody⟩ ∧
      (pyTruthy j = false → api_ner extract (some j) = Except.ok ⟨400, errBody⟩) ∧
      (pyTruthy j = true → j.isObj = false →
        api_ner extract (some j) = Except.error ("AttributeError")) := by
  refine ⟨rfl, fun hf => ?_, fun ht hobj => ?_⟩
  · simp [api_ner, hf, lookupLast, show pyStrip "" = "" from rfl]
  · cases j <;> simp_all [api_ner, pyTruthy, Json.isObj]

/-- Witness for C9 (amended) at the truthy non-object body `[1]`. -/
theorem c9_amended_witness :
    pyTruthy (Json.arr [Json.num 1]) = true ∧
      (Json.arr [Json.num 1]).isObj = false ∧
      api_ner extractNone (some (Json.arr [Json.num 1])) =
        Except.error ("AttributeError") :=
  ⟨by decide, by decide,
    (c9_amended_body_handling extractNone (Json.arr [Json.num 1])).2.2
      (by decide) (by decide)⟩

/-- C9 counterexample: the body `[1]` is valid JSON but not an object; the
claim says the handler returns HTTP 400, yet the handler raises
`AttributeError` (surfaced as HTTP 500) and returns no response at all. -/
theorem c9_counterexample :
    api_ner extractNone (some (Json.arr [Json.num 1])) =
        Except.error ("AttributeError") ∧
      ∀ r : HttpResponse,
        api_ner extractNone (some (Json.arr [Json.num 1])) ≠ Except.ok r := by
  refine ⟨rfl, fun r hr => ?_⟩
  have he : api_ner extractNone (some (Json.arr [Json.num 1])) =
      Except.error ("AttributeError") := rfl
  rw [he] at hr
  exact Except.noConfusion hr

lemma jsSlice_stop_le_start (s : String) (a b : Nat) (h : b ≤ a) : jsSlice s a b = "" := by
  unfold jsSlice
  rw [Nat.sub_eq_zero_of_le h, List.take_zero]

lemma escapeHtml_empty : escapeHtml "" = "" := rfl

lemma renderLoop_eq_specWalk (t : String) :
    ∀ (l : List EntitySpan) (c : Nat), renderLoop t l c = specHighlightWalk t l c
  | [], c => by
      unfold renderLoop specHighlightWalk
      by_cases h : c < t.length
      · rw [if_pos h]
      · rw [if_neg h, jsSlice_stop_le_start t c t.length (Nat.le_of_not_lt h),
          escapeHtml_empty]
  | e :: rest, c => by
      unfold renderLoop specHighlightWalk
      rw [renderLoop_eq_specWalk t rest e.«end»]
      by_cases h : c < e.start
      · rw [if_pos h]
      · rw [if_neg h, jsSlice_stop_le_start t c e.start (Nat.le_of_not_lt h),
          escapeHtml_empty]

lemma sortByStart_sorted (l : List EntitySpan) : List.Sorted spanLe (sortByStart l) :=
  List.sorted_insertionSort spanLe l

lemma sortByStart_idem (l : List EntitySpan) :
    sortByStart (sortByStart l) = sortByStart l :=
  (sortByStart_sorted l).insertionSort_eq

lemma sortByStart_perm (l : List EntitySpan) : (sortByStart l).Perm l :=
  List.perm_insertionSort spanLe l

lemma sortByStart_eq_nil_iff (l : List EntitySpan) : sortByStart l = [] ↔ l = [] := by
  constructor
  · intro h
    have hl := (sortByStart_perm l).length_eq
    rw [h] at hl
    exact List.length_eq_zero.mp hl.symm
  · intro h
    rw [h]
    rfl

lemma renderHighlighted_cons (t : String) (e : EntitySpan) (l : List EntitySpan) :
    renderHighlighted t (e :: l) =
      (DomWrite.setHTML ("<div style=\"line-height:1.5;\">" ++
          renderLoop t (sortByStart (e :: l)) 0 ++ "</div>"),
        sortByStart (e :: l)) := rfl

lemma renderHighlighted_fst_eq_specWalk (t : String) (es : List EntitySpan)
    (h : es ≠ []) :
    (renderHighlighted t es).fst =
      DomWrite.setHTML ("<div style=\"line-height:1.5;\">" ++
        specHighlightWalk t (sortByStart es) 0 ++ "</div>") := by
  cases es with
  | nil => exact absurd rfl h
  | cons a l =>
      rw [renderHighlighted_cons]
      show DomWrite.setHTML _ = _
      rw [renderLoop_eq_specWalk]

lemma mark_infix_specWalk (t : String) (e : EntitySpan) :
    ∀ (l : List EntitySpan) (c : Nat), e ∈ l →
      ∃ pre post : List Char,
        pre ++ (highlightMark t e).data ++ post = (specHighlightWalk t l c).data
  | [], _, h => absurd h (List.not_mem_nil e)
  | f :: rest, c, h => by
      rcases List.mem_cons.mp h with rfl | h2
      · refine ⟨(escapeHtml (jsSlice t c e.start)).data,
          (specHighlightWalk t rest e.«end»).data, ?_⟩
        simp [specHighlightWalk, String.data_append]
      · obtain ⟨pre, post, hp⟩ := mark_infix_specWalk t e rest f.«end» h2
        refine ⟨(escapeHtml (jsSlice t c f.start)).data ++ (highlightMark t f).data ++ pre,
          post, ?_⟩
        simp only [specHighlightWalk, String.data_append]
        rw [← hp]
        simp [List.append_assoc]

/-- C4: on a non-empty span list, `renderHighlighted` sorts the spans
ascending by `start` and then walks the text with a cursor from 0 exactly as
the spec describes: escaped gap, highlighted escaped substring tagged with
the label, cursor advanced to `span.end`, and the escaped tail after the
last span. -/
theorem c4_highlight_walk (t : String) (es : List EntitySpan) (h : es ≠ []) :
    (renderHighlighted t es).fst =
      DomWrite.setHTML ("<div style=\"line-height:1.5;\">" ++
        specHighlightWalk t (sortByStart es) 0 ++ "</div>") :=
  renderHighlighted_fst_eq_specWalk t es h

/-- Witness for C4 on a one-span list. -/
theorem c4_witness :
    ([⟨("x"), ("L"), 0, 1⟩] : List EntitySpan) ≠ [] ∧
      (renderHighlighted ("x") [⟨("x"), ("L"), 0, 1⟩]).fst =
        DomWrite.setHTML ("<div style=\"line-height:1.5;\">" ++
          specHighlightWalk ("x") (sortByStart [⟨("x"), ("L"), 0, 1⟩]) 0 ++ "</div>") :=
  ⟨by decide, c4_highlight_walk ("x") _ (by decide)⟩

/-- C6: rendering the highlight with the spans as received equals rendering
with the same spans pre-sorted ascending by `start` (sort-then-render
invariant). -/
theorem c6_sort_then_render_invariant (t : String) (es : List EntitySpan) :
    (renderHighlighted t es).fst = (renderHighlighted t (sortByStart es)).fst := by
  by_cases h : es = []
  · rw [h]
    rfl
  · have h2 : sortByStart es ≠ [] := fun hh => h ((sortByStart_eq_nil_iff es).mp hh)
    rw [renderHighlighted_fst_eq_specWalk t es h,
      renderHighlighted_fst_eq_specWalk t (sortByStart es) h2, sortByStart_idem]

/-- C5 counterexample: with the service order `[B(2,4), A(0,2)]`, the
analyze flow renders the table from the array that `renderHighlighted` has
already sorted in place, so the table does not show the original service
order. -/
theorem c5_counterexample :
    (analyzeRender ("abcdef") [⟨("cd"), ("B"), 2, 4⟩, ⟨("ab"), ("A"), 0, 2⟩]).snd ≠
      renderEntitiesTable [⟨("cd"), ("B"), 2, 4⟩, ⟨("ab"), ("A"), 0, 2⟩] := by
  decide

/-- C5 (amended): `renderEntitiesTable` emits one row per span in the order
of the list it receives, but the analyze flow hands it the array that
`renderHighlighted` sorted in place, so the table lists the spans in
ascending-`start` order rather than original service order. -/
theorem c5_amended_table_in_sorted_order (t : String) (es : List EntitySpan) :
    (analyzeRender t es).snd = renderEntitiesTable (sortByStart es) ∧
      List.Sorted spanLe (sortByStart es) := by
  refine ⟨?_, sortByStart_sorted es⟩
  cases es with
  | nil => rfl
  | cons a l => rfl

lemma escChar_all_ne_lt (c : Char) : (escChar c).all (fun d => d != '<') = true := by
  unfold escChar
  split_ifs with h1 h2 h3
  · rfl
  · rfl
  · rfl
  · simp_all

lemma flatMap_escChar_all_ne_lt :
    ∀ l : List Char, ((l.flatMap escChar).all (fun d => d != '<')) = true
  | [] => rfl
  | c :: l => by
      rw [List.flatMap_cons, List.all_append, flatMap_escChar_all_ne_lt l,
        escChar_all_ne_lt]
      rfl

/-- C7: rendering the highlight with an empty entity list writes the raw
text as `textContent`, which serializes exactly to the escaped original
text, and that output contains no markup at all (not a single `<`). -/
theorem c7_empty_list_renders_escaped_text (t : String) :
    renderHighlighted t [] = (DomWrite.setText t, []) ∧
      (renderHighlighted t []).fst.asHTML = escapeHtml t ∧
      ((renderHighlighted t []).fst.asHTML).data.all (fun d => d != '<') = true :=
  ⟨rfl, rfl, flatMap_escChar_all_ne_lt t.data⟩

/-- C8: when the sorted span list still has an adjacent overlap
(`span[i].end > span[i+1].start`), the renderer does not de-overlap: the
walk is exactly the sorted-cursor walk that emits each span's full escaped
substring `text.slice(start, end)` and then sets the cursor to `span.end`,
and each span's full highlight markup occurs verbatim in the output. -/
theorem c8_overlapping_spans_not_deoverlapped (t : String) (es : List EntitySpan)
    (hov : hasOverlap (sortByStart es) = true) :
    (renderHighlighted t es).fst =
      DomWrite.setHTML ("<div style=\"line-height:1.5;\">" ++
        specHighlightWalk t (sortByStart es) 0 ++ "</div>") ∧
      ∀ e ∈ es, ∃ pre post : List Char,
        pre ++ (highlightMark t e).data ++ post =
          (specHighlightWalk t (sortByStart es) 0).data := by
  have hne : es ≠ [] := by
    intro hl
    rw [hl] at hov
    exact absurd hov (by decide)
  refine ⟨renderHighlighted_fst_eq_specWalk t es hne, fun e he => ?_⟩
  exact mark_infix_specWalk t e (sortByStart es) 0
    ((sortByStart_perm es).mem_iff.mpr he)

/-- Witness for C8 on the overlapping pair `(0,5)` and `(3,8)`. -/
theorem c8_witness :
    hasOverlap (sortByStart [⟨("abcde"), ("A"), 0, 5⟩, ⟨("defgh"), ("B"), 3, 8⟩]) =
        true ∧
      ((renderHighlighted ("abcdefgh")
            [⟨("abcde"), ("A"), 0, 5⟩, ⟨("defgh"), ("B"), 3, 8⟩]).fst =
        DomWrite.setHTML ("<div style=\"line-height:1.5;\">" ++
          specHighlightWalk ("abcdefgh")
            (sortByStart [⟨("abcde"), ("A"), 0, 5⟩, ⟨("defgh"), ("B"), 3, 8⟩]) 0 ++
          "</div>") ∧
        ∀ e ∈ [(⟨("abcde"), ("A"), 0, 5⟩ : EntitySpan), ⟨("defgh"), ("B"), 3, 8⟩],
          ∃ pre post : List Char,
            pre ++ (highlightMark ("abcdefgh") e).data ++ post =
              (specHighlightWalk ("abcdefgh")
                (sortByStart [⟨("abcde"), ("A"), 0, 5⟩, ⟨("defgh"), ("B"), 3, 8⟩])
                0).data) :=
  ⟨by decide, c8_overlapping_spans_not_deoverlapped ("abcdefgh") _ (by decide)⟩

lemma sandwich_trans {x y z : List Char}
    (h1 : ∃ p q, p ++ x ++ q = y) (h2 : ∃ p q, p ++ y ++ q = z) :
    ∃ p q, p ++ x ++ q = z := by
  obtain ⟨p1, q1, e1⟩ := h1
  obtain ⟨p2, q2, e2⟩ := h2
  refine ⟨p2 ++ p1, q1 ++ q2, ?_⟩
  rw [← e2, ← e1]
  simp [List.append_assoc]

/-- C10: the plain-text gaps and each span's substring pass through
`escapeHtml` (`&`, `<`, `>` replaced; quotes untouched), but the label is
interpolated into the markup raw: the whole highlight markup of each span,
and in particular the label fragment with the label verbatim, occur in the
output as written. -/
theorem c10_label_interpolated_unescaped (t : String) (es : List EntitySpan)
    (e : EntitySpan) (he : e ∈ es) :
    (∃ out : String, (renderHighlighted t es).fst = DomWrite.setHTML out ∧
      (∃ pre post : List Char, pre ++ (highlightMark t e).data ++ post = out.data) ∧
      (∃ pre post : List Char,
        pre ++ (" <span class=\"label\">[" ++ e.label ++ "]</span>").data ++ post =
          out.data)) ∧
    escapeHtml ("&<>\"") = "&amp;&lt;&gt;\"" := by
  refine ⟨?_, by decide⟩
  have hne : es ≠ [] := List.ne_nil_of_mem he
  have hmark : ∃ p q : List Char,
      p ++ (highlightMark t e).data ++ q =
        (specHighlightWalk t (sortByStart es) 0).data :=
    mark_infix_specWalk t e (sortByStart es) 0 ((sortByStart_perm es).mem_iff.mpr he)
  have hwalk : ∃ p q : List Char,
      p ++ (specHighlightWalk t (sortByStart es) 0).data ++ q =
        ("<div style=\"line-height:1.5;\">" ++
          specHighlightWalk t (sortByStart es) 0 ++ "</div>").data :=
    ⟨("<div style=\"line-height:1.5;\">").data, ("</div>").data, by
      simp [String.data_append]⟩
  have hfrag : ∃ p q : List Char,
      p ++ (" <span class=\"label\">[" ++ e.label ++ "]</span>").data ++ q =
        (highlightMark t e).data := by
    refine ⟨("<mark class=\"entity\" style=\"background:" ++ bgFor e.label ++ "\">" ++
        escapeHtml (jsSlice t e.start e.«end»)).data, ("</mark>").data, ?_⟩
    have hsplit : ("]</span></mark>" : String) = ("]</span>") ++ ("</mark>") := rfl
    unfold highlightMark
    rw [hsplit]
    simp [String.data_append, List.append_assoc]
  exact ⟨"<div style=\"line-height:1.5;\">" ++
      specHighlightWalk t (sortByStart es) 0 ++ "</div>",
    renderHighlighted_fst_eq_specWalk t es hne,
    sandwich_trans hmark hwalk, sandwich_trans (sandwich_trans hfrag hmark) hwalk⟩

/-- Witness for C10 with a markup-bearing label on the span list
`[("a&", "<i>", 0, 2)]`. -/
theorem c10_witness :
    (∃ out : String,
      (renderHighlighted ("a&b") [⟨("a&"), ("<i>"), 0, 2⟩]).fst =
          DomWrite.setHTML out ∧
        (∃ pre post : List Char,
          pre ++ (highlightMark ("a&b") ⟨("a&"), ("<i>"), 0, 2⟩).data ++ post =
            out.data) ∧
        (∃ pre post : List Char,
          pre ++ (" <span class=\"label\">[" ++
              (⟨("a&"), ("<i>"), 0, 2⟩ : EntitySpan).label ++ "]</span>").data ++ post =
            out.data)) ∧
    escapeHtml ("&<>\"") = "&amp;&lt;&gt;\"" :=
  c10_label_interpolated_unescaped ("a&b") [⟨("a&"), ("<i>"), 0, 2⟩]
    ⟨("a&"), ("<i>"), 0, 2⟩ (by decide)
